import Mathlib

/-!
# Verification of the Oracle→PostgreSQL migration analyzer (`oracle_analyzer.py`)

A shallow embedding of the analysis pipeline of `oracle_analyzer.py`:
capability classification (`check_dba_privileges`), scope resolution
(the schema-selection logic of `run_ora2pg_analysis` together with
`get_all_schemas_for_dba`), the failure-isolated query executors
(`_execute_dependency_queries`, `_execute_size_queries`), the report
parser (`parse_ora2pg_report`, `parse_object_summary_from_html`,
`parse_procedure_details`), and the tier-partitioned persistence layer
(`cleanup_existing_data`, `save_to_postgresql`).

Database rows are modelled as opaque payloads; the PostgreSQL results
store is modelled as a list of rows tagged with their table name and
connection id, so that the delete-then-insert persistence contract can
be stated and proved as list-level properties.
-/

namespace OracleAnalyzer

/-! ## Capability classifier: `check_dba_privileges` (lines 226–285)

The `is_dba` key of a connection's configuration is absent, the string
`'auto'`, a boolean, or some other (non-boolean, non-`'auto'`) value;
the code probes automatically in every case except an explicit boolean. -/

/-- The possible states of the `is_dba` key in a `db_config` entry. -/
inductive IsDbaConfig where
  | absent
  | auto
  | manual (b : Bool)
  | otherValue
  deriving DecidableEq, Repr

/-- Outcome of one capability probe: `none` models the query raising an
exception; `some n` models a fetched numeric result `n`. -/
abbrev ProbeOutcome := Option Int

/-- Outcomes of the fixed battery of four DBA probes (`dba_tests`,
lines 249–261): DBA role membership, `dba_users` readability,
administrative identity, and `SELECT ANY TABLE`. -/
structure ProbeOutcomes where
  role_dba : ProbeOutcome
  dba_users : ProbeOutcome
  admin_user : ProbeOutcome
  select_any_table : ProbeOutcome
  deriving DecidableEq, Repr

/-- The probe battery in the order the code runs it. -/
def probeResults (o : ProbeOutcomes) : List ProbeOutcome :=
  [o.role_dba, o.dba_users, o.admin_user, o.select_any_table]

/-- One loop iteration of lines 266–276: an exception (`none`) is caught
and scored as a failure; a fetched result passes iff it is `> 0`. -/
def probePasses : ProbeOutcome → Bool
  | none => false
  | some n => decide (0 < n)

/-- `dba_score` accumulated by the probe loop (lines 263–276). -/
def dba_score (o : ProbeOutcomes) : Nat :=
  ((probeResults o).filter probePasses).length

/-- Result of `check_dba_privileges`: the classification together with
the number of probe queries that were executed. -/
structure DbaCheck where
  is_dba : Bool
  probes_run : Nat
  deriving DecidableEq, Repr

/-- `check_dba_privileges` (lines 226–285): an explicit boolean
`is_dba` is returned directly with no probing; `'auto'`, an absent key,
and any non-boolean value fall through to the four-probe battery, and
the classification is `dba_score >= 2` (line 279). -/
def check_dba_privileges (cfg : IsDbaConfig) (o : ProbeOutcomes) : DbaCheck :=
  match cfg with
  | .manual b => { is_dba := b, probes_run := 0 }
  | _ => { is_dba := decide (2 ≤ dba_score o), probes_run := (probeResults o).length }

/-! ## Scope resolver: schema selection in `run_ora2pg_analysis`
(lines 1545–1596) and `get_all_schemas_for_dba` (lines 1010–1058) -/

/-- The scope-relevant part of one connection's configuration: the
optional `schema` key (where `some ""` models a present-but-empty, hence
falsy, value) and the `analyze_all_schemas` flag. -/
structure ScopeConfig where
  schema : Option String
  analyze_all_schemas : Bool
  deriving DecidableEq, Repr

/-- `get_all_schemas_for_dba` (lines 1010–1058). `enumerated = none`
models the `dba_objects` enumeration raising an exception; both that
path and an empty enumeration fall back to the current user's schema. -/
def get_all_schemas_for_dba (analyze_all : Bool) (current_user : String)
    (enumerated : Option (List String)) : List String :=
  if !analyze_all then [current_user]
  else
    match enumerated with
    | none => [current_user]
    | some schemas => if schemas.isEmpty then [current_user] else schemas

/-- Python truthiness test `'schema' in db_config and db_config['schema']`
(line 1551). -/
def hasExplicitSchema (cfg : ScopeConfig) : Bool :=
  match cfg.schema with
  | some s => s ≠ ""
  | none => false

/-- The `analyzed_schemas` computation of `run_ora2pg_analysis`
(lines 1545–1581). `dbaConnFailed = true` models the temporary
connection (line 1564) raising, which falls back to `[username]`
(line 1577); `enumerated` is passed through to
`get_all_schemas_for_dba` on the non-failing DBA path. -/
def resolve_analyzed_schemas (cfg : ScopeConfig) (is_dba : Bool) (username : String)
    (dbaConnFailed : Bool) (enumerated : Option (List String)) : List String :=
  if hasExplicitSchema cfg then
    [cfg.schema.getD ""]
  else if is_dba then
    if dbaConnFailed then [username]
    else get_all_schemas_for_dba cfg.analyze_all_schemas username enumerated
  else [username]

/-! ## Failure-isolated query executors:
`_execute_dependency_queries` (lines 508–543) and
`_execute_size_queries` (lines 955–1001)

Each executor receives a dict of queries keyed by category and fills a
result dict that starts with every category empty; a query that raises
is caught and leaves `[]` for its own category only.  The outcome of
attempting a query is modelled as `Option (List α)` (`none` = the query
raised). -/

/-- Category keys of the dependency-query dict, in insertion order
(lines 500–506 / 493–498). -/
def depQueryKeys : List String :=
  ["dependencies", "db_links", "object_summary", "cross_schema_privs",
   "external_references"]

/-- Category keys of the size-query dict, in insertion order
(lines 944–953). -/
def sizeQueryKeys : List String :=
  ["database_size", "tablespace_size", "schema_size", "table_size",
   "index_size", "segment_size", "code_lines", "code_stats"]

/-- One iteration of the executor loop (lines 527–540): on success the
category is set to the fetched rows, on an exception it is set to `[]`.
All other categories of the accumulated result dict are untouched. -/
def executeQueryStep (outcomes : String → Option (List Nat))
    (acc : String → List Nat) (key : String) : String → List Nat :=
  fun q => if q = key then (outcomes key).getD [] else acc q

/-- The shared executor-loop shape of `_execute_dependency_queries` and
`_execute_size_queries`: start from an all-empty result dict and run
every query of the family in order, isolating failures per category.
The function is total: no exception escapes the loop. -/
def executeQueries (keys : List String) (outcomes : String → Option (List Nat)) :
    String → List Nat :=
  keys.foldl (executeQueryStep outcomes) (fun _ => [])

/-- `_execute_dependency_queries` (lines 508–543), as the result dict
restricted to its query categories. -/
def execute_dependency_queries (outcomes : String → Option (List Nat)) :
    String → List Nat :=
  executeQueries depQueryKeys outcomes

/-- `_execute_size_queries` (lines 955–1001), as the result dict
restricted to its query categories. -/
def execute_size_queries (outcomes : String → Option (List Nat)) :
    String → List Nat :=
  executeQueries sizeQueryKeys outcomes

/-! ## Persistence: `cleanup_existing_data` (lines 2519–2586) and the
per-connection insert sequence of `save_to_postgresql` (lines 2588–2818)

The results store is a list of rows, each tagged with its table name and
`connection_id`; row contents are opaque payloads. -/

/-- One row of the results store. -/
structure PgRow where
  table : String
  connId : Nat
  payload : Nat
  deriving DecidableEq, Repr

/-- The tier-agnostic ora2pg tables, always cleaned (lines 2526–2530). -/
def ora2pgTables : List String :=
  ["ptd_ora2pg_object_summary", "ptd_ora2pg_estimates"]

/-- The tier-partitioned dependency/size table family for one tier
(lines 2533–2562). -/
def tierTables (is_dba : Bool) : List String :=
  if is_dba then
    ["pdt_dep_dba_external_references",
     "pdt_dep_dba_cross_schema_privileges",
     "pdt_dep_dba_db_links",
     "pdt_dep_dba_dependencies",
     "pdt_sizes_dba_code_lines",
     "pdt_sizes_dba_code_stats",
     "pdt_sizes_dba_segment_size",
     "pdt_sizes_dba_index_size",
     "pdt_sizes_dba_table_size",
     "pdt_sizes_dba_schema_size",
     "pdt_sizes_dba_tablespace_size",
     "pdt_sizes_dba_database_size"]
  else
    ["pdt_dep_nodba_external_references",
     "pdt_dep_nodba_cross_schema_privileges",
     "pdt_dep_nodba_db_links",
     "pdt_dep_nodba_dependencies",
     "pdt_sizes_nodba_code_lines",
     "pdt_sizes_nodba_code_stats",
     "pdt_sizes_nodba_segment_size",
     "pdt_sizes_nodba_index_size",
     "pdt_sizes_nodba_table_size",
     "pdt_sizes_nodba_schema_size",
     "pdt_sizes_nodba_tablespace_size",
     "pdt_sizes_nodba_database_size"]

/-- `tables_to_clean` of `cleanup_existing_data` (lines 2526–2562). -/
def tables_to_clean (is_dba : Bool) : List String :=
  ora2pgTables ++ tierTables is_dba

/-- `cleanup_existing_data` (lines 2519–2586): for every table in
`tables_to_clean`, `DELETE ... WHERE connection_id = %s`. -/
def cleanup_existing_data (connection_id : Nat) (is_dba : Bool)
    (store : List PgRow) : List PgRow :=
  store.filter fun r =>
    !((tables_to_clean is_dba).contains r.table && r.connId == connection_id)

/-- The `dep_prefix` table-name prefix of `save_to_postgresql` (line 2632). -/
def dep_family (is_dba : Bool) : String :=
  if is_dba then "pdt_dep_dba_" else "pdt_dep_nodba_"

/-- The `size_prefix` table-name prefix of `save_to_postgresql` (line 2723). -/
def size_family (is_dba : Bool) : String :=
  if is_dba then "pdt_sizes_dba_" else "pdt_sizes_nodba_"

/-- The dependency bundle returned by the extraction dispatcher, with
each row an opaque payload. -/
structure DependencyResults where
  dependencies : List Nat
  db_links : List Nat
  cross_schema_privs : List Nat
  external_references : List Nat
  deriving DecidableEq, Repr

/-- The size bundle returned by the extraction dispatcher. -/
structure SizeResults where
  database_size : List Nat
  tablespace_size : List Nat
  schema_size : List Nat
  table_size : List Nat
  index_size : List Nat
  segment_size : List Nat
  code_lines : List Nat
  code_stats : List Nat
  deriving DecidableEq, Repr

/-- Append the rows of one `INSERT` loop for a single table. -/
def insertRows (table : String) (connId : Nat) (payloads : List Nat)
    (store : List PgRow) : List PgRow :=
  store ++ payloads.map fun p => { table := table, connId := connId, payload := p }

/-- The per-connection insert sequence of `save_to_postgresql`
(lines 2631–2812) as an ordered plan of (table, rows) pairs:
dependency tables first (lines 2635–2666), then the ora2pg tables when
metrics are present (lines 2669–2714: the object-summary rows and a
single estimates row), then — when `analyze_sizes` holds and size data
is present — the size tables (lines 2727–2812), where the `code_lines`
category is wholly skipped if it holds more than 10000 rows
(lines 2793–2803). -/
def insertPlan (is_dba : Bool) (dep : DependencyResults)
    (hasOra2pg : Bool) (oraSummary : List Nat)
    (analyze_sizes : Bool) (sz : SizeResults) : List (String × List Nat) :=
  [(dep_family is_dba ++ "dependencies", dep.dependencies),
   (dep_family is_dba ++ "db_links", dep.db_links),
   (dep_family is_dba ++ "cross_schema_privileges", dep.cross_schema_privs),
   (dep_family is_dba ++ "external_references", dep.external_references)]
  ++ (if hasOra2pg then
        [("ptd_ora2pg_object_summary", oraSummary),
         ("ptd_ora2pg_estimates", [0])]
      else [])
  ++ (if analyze_sizes then
        [(size_family is_dba ++ "database_size", sz.database_size),
         (size_family is_dba ++ "tablespace_size", sz.tablespace_size),
         (size_family is_dba ++ "schema_size", sz.schema_size),
         (size_family is_dba ++ "table_size", sz.table_size),
         (size_family is_dba ++ "index_size", sz.index_size),
         (size_family is_dba ++ "segment_size", sz.segment_size),
         (size_family is_dba ++ "code_lines",
           if sz.code_lines.length ≤ 10000 then sz.code_lines else []),
         (size_family is_dba ++ "code_stats", sz.code_stats)]
      else [])

/-- Persist one connection's run: `cleanup_existing_data` followed by
the insert sequence of `save_to_postgresql` (lines 2619–2816). -/
def save_connection_data (connection_id : Nat) (is_dba : Bool)
    (dep : DependencyResults) (hasOra2pg : Bool) (oraSummary : List Nat)
    (analyze_sizes : Bool) (sz : SizeResults) (store : List PgRow) : List PgRow :=
  (insertPlan is_dba dep hasOra2pg oraSummary analyze_sizes sz).foldl
    (fun st e => insertRows e.1 connection_id e.2 st)
    (cleanup_existing_data connection_id is_dba store)

/-- Number of rows of table `t` belonging to connection `c`. -/
def rowCount (store : List PgRow) (t : String) (c : Nat) : Nat :=
  (store.filter fun r => r.table == t && r.connId == c).length

/-! ## Text utilities shared by the report parsers

Python string/regex primitives are embedded over `List Char`, covering
the ASCII character classes the report patterns use. -/

/-- Python's `\s` class (ASCII): space, tab, newline, carriage return,
form feed, vertical tab. -/
def isSpaceChar (c : Char) : Bool :=
  c = ' ' || c = '\t' || c = '\n' || c = '\r' ||
  c = Char.ofNat 12 || c = Char.ofNat 11

/-- First character of the procedure-details identifier class
`[a-zA-Z_]`. -/
def isIdentStart (c : Char) : Bool := c.isAlpha || c = '_'

/-- Continuation class `[a-zA-Z0-9_.]` of the procedure-details
pattern. -/
def isIdentChar (c : Char) : Bool := c.isAlphanum || c = '_' || c = '.'

/-- Python's `\w` class (ASCII). -/
def isWordChar (c : Char) : Bool := c.isAlphanum || c = '_'

/-- `str.strip()`: remove leading and trailing whitespace. -/
def pyStrip (s : String) : String :=
  ⟨((s.data.dropWhile isSpaceChar).reverse.dropWhile isSpaceChar).reverse⟩

/-- `str.lower()` (ASCII). -/
def pyLower (s : String) : String := ⟨s.data.map Char.toLower⟩

/-- Substring test: does `hay` contain `needle` (Python's `in`)? -/
def containsSub : List Char → List Char → Bool
  | needle, [] => needle.isEmpty
  | needle, c :: rest => needle.isPrefixOf (c :: rest) || containsSub needle rest

/-- Python `needle in hay` on strings. -/
def pyContains (hay needle : String) : Bool := containsSub needle.data hay.data

/-- Numeric value of a list of ASCII digits. -/
def digitsToNat (ds : List Char) : Nat :=
  ds.foldl (fun n c => n * 10 + (c.toNat - '0'.toNat)) 0

/-- Valid continuation of a Python numeric-literal digit group: digits
with single underscores allowed only between digits. -/
def digitsTail : List Char → Bool
  | [] => true
  | ['_'] => false
  | '_' :: c :: rest => c.isDigit && digitsTail rest
  | c :: rest => c.isDigit && digitsTail rest

/-- A nonempty Python digit group (digits with internal underscores),
with its numeric value. -/
def natDigits? : List Char → Option Nat
  | [] => none
  | c :: rest =>
    if c.isDigit && digitsTail rest then
      some (digitsToNat ((c :: rest).filter fun d => d ≠ '_'))
    else none

/-- `int(s)` on an already-stripped string: optional sign followed by a
digit group.  Non-ASCII digit forms are outside the model. -/
def pyInt? (s : String) : Option Int :=
  match s.data with
  | '+' :: rest => (natDigits? rest).map Int.ofNat
  | '-' :: rest => (natDigits? rest).map fun n => -(n : Int)
  | cs => (natDigits? cs).map Int.ofNat

/-- Number of genuine digits in a digit group (underscores excluded). -/
def digitCount (ds : List Char) : Nat := (ds.filter fun d => d ≠ '_').length

/-- Value of a digit group used as a fraction part. -/
def fracVal (ds : List Char) : ℚ :=
  (digitsToNat (ds.filter fun d => d ≠ '_') : ℚ) / (10 : ℚ) ^ digitCount ds

/-- Mantissa of a Python float literal: `D [. D?] | D. | . D` with `D` a
digit group. -/
def pyFloatMantissa? (cs : List Char) : Option ℚ :=
  let ip := cs.takeWhile fun c => c ≠ '.'
  match cs.dropWhile fun c => c ≠ '.' with
  | [] => (natDigits? ip).map fun n => (n : ℚ)
  | _ :: fp =>
    match ip, fp with
    | [], [] => none
    | [], _ =>
      if (match fp with | c :: rest => c.isDigit && digitsTail rest | [] => false) then
        some (fracVal fp)
      else none
    | _, [] => (natDigits? ip).map fun n => (n : ℚ)
    | _, _ =>
      match natDigits? ip with
      | none => none
      | some n =>
        if (match fp with | c :: rest => c.isDigit && digitsTail rest | [] => false) then
          some ((n : ℚ) + fracVal fp)
        else none

/-- Exponent of a Python float literal: optional sign and a digit
group. -/
def pyFloatExp? (cs : List Char) : Option Int :=
  match cs with
  | '+' :: rest => (natDigits? rest).map Int.ofNat
  | '-' :: rest => (natDigits? rest).map fun n => -(n : Int)
  | _ => (natDigits? cs).map Int.ofNat

/-- Magnitude of a Python float literal, with optional `e`/`E`
exponent. -/
def pyFloatMag? (cs : List Char) : Option ℚ :=
  let mant := cs.takeWhile fun c => c ≠ 'e' && c ≠ 'E'
  match cs.dropWhile fun c => c ≠ 'e' && c ≠ 'E' with
  | [] => pyFloatMantissa? mant
  | _ :: expPart =>
    match pyFloatMantissa? mant, pyFloatExp? expPart with
    | some m, some e => some (m * (10 : ℚ) ^ e)
    | _, _ => none

/-- `float(s)` on an already-stripped string, over exact rationals.
Non-finite literals (`inf`, `nan`) and non-ASCII digit forms are
outside the model. -/
def pyFloat? (s : String) : Option ℚ :=
  match s.data with
  | '+' :: rest => pyFloatMag? rest
  | '-' :: rest => (pyFloatMag? rest).map Neg.neg
  | cs => pyFloatMag? cs

/-- `safe_int` of `parse_object_summary_from_html` (lines 1886–1890):
strip, treat an empty result as 0, and fall back to 0 when `int()`
would raise. -/
def safe_int (value : String) : Int :=
  let t := pyStrip value
  if t = "" then 0 else (pyInt? t).getD 0

/-- `safe_float` (lines 1892–1896): strip, treat an empty result as
0.0, and fall back to 0.0 when `float()` would raise. -/
def safe_float (value : String) : ℚ :=
  let t := pyStrip value
  if t = "" then 0 else (pyFloat? t).getD 0

/-! ## Nested-detail extraction: `parse_procedure_details`
(lines 1942–1967)

The pattern `([a-zA-Z_][a-zA-Z0-9_.]*)\s*:\s*(\d+(?:\.\d+)?)` is
embedded as a direct scanner.  For this pattern the regex engine's
backtracking can never turn a failed greedy attempt into a success
(`:` belongs to neither the identifier class nor `\s`, and the decimal
group is optional), so greedy scanning is exact. -/

/-- Attempt the procedure-details pattern at the head of the input;
on success return the identifier, the matched cost token and the rest
of the input after the match. -/
def matchProcAt : List Char → Option (List Char × List Char × List Char)
  | [] => none
  | c :: rest =>
    if isIdentStart c then
      let name := c :: rest.takeWhile isIdentChar
      let r1 := rest.dropWhile isIdentChar
      match r1.dropWhile isSpaceChar with
      | ':' :: r3 =>
        let r4 := r3.dropWhile isSpaceChar
        let ds := r4.takeWhile Char.isDigit
        if ds.isEmpty then none
        else
          match r4.dropWhile Char.isDigit with
          | '.' :: r6 =>
            let fs := r6.takeWhile Char.isDigit
            if fs.isEmpty then some (name, ds, '.' :: r6)
            else some (name, ds ++ '.' :: fs, r6.dropWhile Char.isDigit)
          | r5 => some (name, ds, r5)
      | _ => none
    else none

/-- `re.findall` scanning for the procedure-details pattern: try the
pattern at each position, resuming after the end of each match.  Every
successful match consumes at least one character, so fuel equal to the
input length never runs out. -/
def findallProcAux : Nat → List Char → List (List Char × List Char)
  | 0, _ => []
  | _ + 1, [] => []
  | fuel + 1, c :: rest =>
    match matchProcAt (c :: rest) with
    | some (name, cost, rest') => (name, cost) :: findallProcAux fuel rest'
    | none => findallProcAux fuel rest

/-- All matches of the procedure-details pattern. -/
def findallProc (cs : List Char) : List (List Char × List Char) :=
  findallProcAux cs.length cs

/-- Value of a matched cost token (`\d+(?:\.\d+)?`) as `float()` reads
it. -/
def costVal (cs : List Char) : ℚ :=
  let ds := cs.takeWhile Char.isDigit
  match cs.dropWhile Char.isDigit with
  | '.' :: fs => (digitsToNat ds : ℚ) + (digitsToNat fs : ℚ) / (10 : ℚ) ^ fs.length
  | _ => (digitsToNat ds : ℚ)

/-- Smallest decimal exponent clearing the denominator (the cost
rationals of this model always have a power-of-ten denominator). -/
def decExp (d : Nat) : Nat :=
  (((List.range 64).find? fun k => 10 ^ k % d == 0)).getD 0

/-- Python's `str(float)` rendering for the finite-decimal values the
cost parser produces (`3.0`, `4.5`). -/
def pyFloatRepr (q : ℚ) : String :=
  let sign := if q < 0 then "-" else ""
  let n := q.num.natAbs
  let d := q.den
  let k := decExp d
  let m := n * 10 ^ k / d
  let ipart := m / 10 ^ k
  let fpart := m % 10 ^ k
  let fpDigits := toString fpart
  let fpPadded := String.mk (List.replicate (k - fpDigits.length) '0') ++ fpDigits
  let fpTrimmed := String.mk (fpPadded.data.reverse.dropWhile fun c => c = '0').reverse
  sign ++ toString ipart ++ "." ++ (if fpTrimmed = "" then "0" else fpTrimmed)

/-- One extracted procedure/function cost (the dicts built at
lines 1956–1960). -/
structure ProcedureDetail where
  name : String
  cost : ℚ
  full_name : String
  deriving DecidableEq, Repr

/-- `parse_procedure_details` (lines 1942–1967): every pattern match
yields one entry; the `ValueError` skip of lines 1961–1963 is
unreachable because the matched cost token is always a valid float. -/
def parse_procedure_details (details_text : String) : List ProcedureDetail :=
  (findallProc details_text.data).map fun m =>
    let procName := pyStrip ⟨m.1⟩
    let procCost := costVal m.2
    { name := procName, cost := procCost,
      full_name := procName ++ ": " ++ pyFloatRepr procCost }

/-! ## Object summary parser: `parse_object_summary_from_html`
(lines 1867–1940) -/

/-- One row of the `ora2pg_object_summary` list (the dicts of
lines 1906–1916 and 1922–1932). -/
structure ObjectSummaryEntry where
  object_name : String
  object_number : Int
  invalid_count : Int
  estimated_cost : ℚ
  comments : String
  details : String
  detail_type : String
  procedure_name : Option String
  procedure_cost : Option ℚ
  deriving DecidableEq, Repr

/-- One body row of the summary table (lines 1880–1936): rows with
fewer than six cells are skipped; a qualifying row yields its MAIN
entry followed by one PROCEDURE entry per parsed detail when the
details text is non-empty and not the placeholder dash. -/
def processRow (cols : List String) : List ObjectSummaryEntry :=
  if cols.length < 6 then []
  else
    let object_name := pyStrip (cols.getD 0 "")
    let object_number := safe_int (cols.getD 1 "")
    let invalid_count := safe_int (cols.getD 2 "")
    let estimated_cost := safe_float (cols.getD 3 "")
    let comments := pyStrip (cols.getD 4 "")
    let details := pyStrip (cols.getD 5 "")
    let main : ObjectSummaryEntry :=
      { object_name := object_name, object_number := object_number,
        invalid_count := invalid_count, estimated_cost := estimated_cost,
        comments := comments, details := details, detail_type := "MAIN",
        procedure_name := none, procedure_cost := none }
    let children :=
      if details ≠ "" && details ≠ "-" then
        (parse_procedure_details details).map fun pd =>
          { object_name := object_name, object_number := 1,
            invalid_count := 0, estimated_cost := pd.cost,
            comments := "Detail of " ++ object_name,
            details := pd.full_name, detail_type := "PROCEDURE",
            procedure_name := some pd.name, procedure_cost := some pd.cost }
      else []
    main :: children

/-- An HTML table as the parser sees it: its `th` texts and all its
`tr` rows (header row included) as their `td` texts. -/
structure HtmlTable where
  headerCells : List String
  rows : List (List String)

/-- Header normalization of line 1876. -/
def headerOf (t : HtmlTable) : List String :=
  t.headerCells.map fun h => pyLower (pyStrip h)

/-- Table-selection test of line 1878: at least six headers, `object`
a substring of the first and `number` of the second. -/
def tableMatches (t : HtmlTable) : Bool :=
  let hs := headerOf t
  decide (6 ≤ hs.length) && pyContains (hs.getD 0 "") "object"
    && pyContains (hs.getD 1 "") "number"

/-- `parse_object_summary_from_html` (lines 1867–1940): only the first
matching table is parsed (the `break` of line 1937); its body rows
(all `tr` but the first) are processed in order. -/
def parse_object_summary_from_html (tables : List HtmlTable) : List ObjectSummaryEntry :=
  match tables.find? tableMatches with
  | some t => ((t.rows.drop 1).map processRow).flatten
  | none => []

/-! ## Textual-report metrics: `parse_ora2pg_report` (lines 1805–1865)

The cost and level patterns are literal words separated by `\s+`,
followed by `\s*` and a captured number (`\d+\.?\d*`) or word (`\w+`).
For these patterns, as for the procedure-details pattern, greedy
scanning without backtracking is exact, and `re.search` is "try the
pattern at each position, left to right". -/

/-- Case-insensitive literal match (the patterns are compiled with
`re.IGNORECASE`); returns the rest of the input. -/
def matchLitCI : List Char → List Char → Option (List Char)
  | [], cs => some cs
  | _ :: _, [] => none
  | p :: ps, c :: cs => if c.toLower = p.toLower then matchLitCI ps cs else none

/-- `\s+`. -/
def matchSpaces1 : List Char → Option (List Char)
  | [] => none
  | c :: rest => if isSpaceChar c then some (rest.dropWhile isSpaceChar) else none

/-- A sequence of literal words separated by `\s+`. -/
def matchWordsAt : List (List Char) → List Char → Option (List Char)
  | [], cs => some cs
  | [w], cs => matchLitCI w cs
  | w :: ws, cs =>
    match matchLitCI w cs with
    | none => none
    | some r =>
      match matchSpaces1 r with
      | none => none
      | some r2 => matchWordsAt ws r2

/-- The captured number `(\d+\.?\d*)` of the cost patterns, as
`float()` reads it (a trailing bare dot is allowed). -/
def matchNumAt (cs : List Char) : Option ℚ :=
  let ds := cs.takeWhile Char.isDigit
  if ds.isEmpty then none
  else
    match cs.dropWhile Char.isDigit with
    | '.' :: r2 =>
      some ((digitsToNat ds : ℚ) +
        (digitsToNat (r2.takeWhile Char.isDigit) : ℚ) /
          (10 : ℚ) ^ (r2.takeWhile Char.isDigit).length)
    | _ => some (digitsToNat ds : ℚ)

/-- A whole cost pattern at one position: the words, then `\s*`, then
the captured number. -/
def matchCostAt (words : List (List Char)) (cs : List Char) : Option ℚ :=
  match matchWordsAt words cs with
  | none => none
  | some r => matchNumAt (r.dropWhile isSpaceChar)

/-- `re.search` for a cost pattern (the patterns begin with a literal
letter, so they can never match at the empty end position). -/
def searchCost (words : List (List Char)) : List Char → Option ℚ
  | [] => none
  | c :: rest =>
    match matchCostAt words (c :: rest) with
    | some q => some q
    | none => searchCost words rest

/-- `cost_patterns` (lines 1822–1826), each as its literal words. -/
def cost_patterns : List (List String) :=
  [["Total", "estimated", "cost:"],
   ["Total", "cost:"],
   ["Migration", "cost:"]]

/-- First-match-wins extraction of the total cost (lines 1828–1832). -/
def extract_total_cost (content : List Char) : Option ℚ :=
  cost_patterns.findSome? fun pat => searchCost (pat.map String.data) content

/-- The captured word `(\w+)` of the level patterns, returned with its
original casing. -/
def matchWordTokenAt (cs : List Char) : Option String :=
  let ws := cs.takeWhile isWordChar
  if ws.isEmpty then none else some ⟨ws⟩

/-- A whole level pattern at one position. -/
def matchLevelAt (words : List (List Char)) (cs : List Char) : Option String :=
  match matchWordsAt words cs with
  | none => none
  | some r => matchWordTokenAt (r.dropWhile isSpaceChar)

/-- `re.search` for a level pattern. -/
def searchLevel (words : List (List Char)) : List Char → Option String
  | [] => none
  | c :: rest =>
    match matchLevelAt words (c :: rest) with
    | some s => some s
    | none => searchLevel words rest

/-- `level_patterns` (lines 1835–1838). -/
def level_patterns : List (List String) :=
  [["Migration", "level:"],
   ["Level:"]]

/-- First-match-wins extraction of the migration level
(lines 1840–1844). -/
def extract_migration_level (content : List Char) : Option String :=
  level_patterns.findSome? fun pat => searchLevel (pat.map String.data) content

/-- The object-count pattern `(\w+)\s+\[(\d+)\]` (line 1847) at one
position; on success returns the captured pair and the rest of the
input after the match. -/
def matchObjAt : List Char → Option ((String × Nat) × List Char)
  | [] => none
  | c :: rest =>
    if isWordChar c then
      let w := c :: rest.takeWhile isWordChar
      match matchSpaces1 (rest.dropWhile isWordChar) with
      | none => none
      | some r2 =>
        match r2 with
        | '[' :: r3 =>
          let ds := r3.takeWhile Char.isDigit
          if ds.isEmpty then none
          else
            match r3.dropWhile Char.isDigit with
            | ']' :: r4 => some ((⟨w⟩, digitsToNat ds), r4)
            | _ => none
        | _ => none
    else none

/-- `re.finditer` scanning for the object-count pattern (fuel as in
`findallProcAux`; each match consumes at least one character). -/
def findallObjAux : Nat → List Char → List (String × Nat)
  | 0, _ => []
  | _ + 1, [] => []
  | fuel + 1, c :: rest =>
    match matchObjAt (c :: rest) with
    | some (m, rest') => m :: findallObjAux fuel rest'
    | none => findallObjAux fuel rest

/-- All object-count matches. -/
def findallObj (cs : List Char) : List (String × Nat) :=
  findallObjAux cs.length cs

/-- Python dict insertion: an existing key keeps its position and takes
the new value, a new key is appended. -/
def updateAssoc (l : List (String × Nat)) (k : String) (v : Nat) : List (String × Nat) :=
  if l.any fun e => e.1 == k then
    l.map fun e => if e.1 == k then (k, v) else e
  else l ++ [(k, v)]

/-- The `objects_count` dict built at lines 1846–1851. -/
def extract_objects_count (content : List Char) : List (String × Nat) :=
  (findallObj content).foldl (fun acc m => updateAssoc acc m.1 m.2) []

/-- The metrics dict of `parse_ora2pg_report` (lines 1807–1813; the
always-empty `details` key is not modelled). -/
structure Ora2pgMetrics where
  total_cost : ℚ
  migration_level : String
  objects_count : List (String × Nat)
  ora2pg_object_summary : List ObjectSummaryEntry
  deriving DecidableEq, Repr

/-- `parse_ora2pg_report` (lines 1805–1865).  `txt = none` models a
missing or unreadable textual report (no file given, file absent, or a
read error caught at line 1853); `html = none` likewise for the HTML
report.  The defaults of lines 1807–1809 survive whenever the
corresponding extraction does not fire. -/
def parse_ora2pg_report (txt : Option String) (html : Option (List HtmlTable)) :
    Ora2pgMetrics :=
  let base : Ora2pgMetrics :=
    { total_cost := 0, migration_level := "Unknown",
      objects_count := [], ora2pg_object_summary := [] }
  let m1 :=
    match txt with
    | none => base
    | some content =>
      { base with
        total_cost := (extract_total_cost content.data).getD base.total_cost
        migration_level :=
          (extract_migration_level content.data).getD base.migration_level
        objects_count := extract_objects_count content.data }
  match html with
  | none => m1
  | some tables =>
    { m1 with ora2pg_object_summary := parse_object_summary_from_html tables }

/-! ## Theorems -/

/-- C1: with override `'auto'` or absent, the classifier is Elevated
iff at least 2 of the 4 probes pass (2 = ceil(4/2)); an erroring probe
(`none`) is scored as failed and never aborts the battery — all four
probes always run, and the score is the independent sum of the four
probe verdicts. -/
theorem capability_classifier_majority (cfg : IsDbaConfig) (o : ProbeOutcomes)
    (h : cfg = IsDbaConfig.auto ∨ cfg = IsDbaConfig.absent) :
    ((check_dba_privileges cfg o).is_dba = true ↔ 2 ≤ dba_score o) ∧
    (check_dba_privileges cfg o).probes_run = 4 ∧
    dba_score o =
      (if probePasses o.role_dba then 1 else 0) +
      (if probePasses o.dba_users then 1 else 0) +
      (if probePasses o.admin_user then 1 else 0) +
      (if probePasses o.select_any_table then 1 else 0) ∧
    probePasses none = false := by
  have hscore : dba_score o =
      (if probePasses o.role_dba then 1 else 0) +
      (if probePasses o.dba_users then 1 else 0) +
      (if probePasses o.admin_user then 1 else 0) +
      (if probePasses o.select_any_table then 1 else 0) := by
    simp only [dba_score, probeResults, List.filter]
    cases probePasses o.role_dba <;> cases probePasses o.dba_users <;>
      cases probePasses o.admin_user <;> cases probePasses o.select_any_table <;>
      simp
  rcases h with rfl | rfl <;>
    exact ⟨by simp [check_dba_privileges], rfl, hscore, rfl⟩

/-- Witness for C1 at a concrete probe vector: one erroring probe, one
failing probe, two passing probes — classified Elevated. -/
theorem capability_classifier_majority_witness :
    ((check_dba_privileges IsDbaConfig.auto
        ⟨some 1, none, some 0, some 2⟩).is_dba = true ↔
      2 ≤ dba_score ⟨some 1, none, some 0, some 2⟩) ∧
    (check_dba_privileges IsDbaConfig.auto
        ⟨some 1, none, some 0, some 2⟩).probes_run = 4 ∧
    dba_score ⟨some 1, none, some 0, some 2⟩ =
      (if probePasses (some 1) then 1 else 0) +
      (if probePasses none then 1 else 0) +
      (if probePasses (some 0) then 1 else 0) +
      (if probePasses (some 2) then 1 else 0) ∧
    probePasses none = false :=
  capability_classifier_majority IsDbaConfig.auto
    ⟨some 1, none, some 0, some 2⟩ (Or.inl rfl)

/-- C2: an explicit boolean `is_dba` override is returned directly as
the tier and no capability probe is executed. -/
theorem explicit_override_skips_probes (b : Bool) (o : ProbeOutcomes) :
    (check_dba_privileges (IsDbaConfig.manual b) o).is_dba = b ∧
    (check_dba_privileges (IsDbaConfig.manual b) o).probes_run = 0 :=
  ⟨rfl, rfl⟩

/-- C3: a non-empty explicit `schema` in the configuration makes the
resolved scope exactly that singleton, whatever the tier, the
whole-instance flag, and the DBA schema-enumeration outcome. -/
theorem explicit_schema_wins (cfg : ScopeConfig) (is_dba : Bool) (username : String)
    (dbaConnFailed : Bool) (enumerated : Option (List String)) (s : String)
    (hs : cfg.schema = some s) (hne : s ≠ "") :
    resolve_analyzed_schemas cfg is_dba username dbaConnFailed enumerated = [s] := by
  simp [resolve_analyzed_schemas, hasExplicitSchema, hs, hne]

/-- Witness for C3: explicit schema `HR` wins over a DBA enumeration
that would have produced two other schemas. -/
theorem explicit_schema_wins_witness :
    resolve_analyzed_schemas ⟨some "HR", true⟩ true "SCOTT" false
      (some ["A", "B"]) = ["HR"] :=
  explicit_schema_wins ⟨some "HR", true⟩ true "SCOTT" false
    (some ["A", "B"]) "HR" rfl (by decide)

/-- C6: in both query executors, each category's result depends only on
its own query's outcome: a raising query (`none`) leaves exactly that
category empty, a succeeding query contributes exactly its rows, and the
executors are total functions (no exception escapes). -/
theorem query_failure_isolation (oDep oSize : String → Option (List Nat)) :
    (execute_dependency_queries oDep "dependencies" = (oDep "dependencies").getD [] ∧
     execute_dependency_queries oDep "db_links" = (oDep "db_links").getD [] ∧
     execute_dependency_queries oDep "object_summary" = (oDep "object_summary").getD [] ∧
     execute_dependency_queries oDep "cross_schema_privs" =
       (oDep "cross_schema_privs").getD [] ∧
     execute_dependency_queries oDep "external_references" =
       (oDep "external_references").getD []) ∧
    (execute_size_queries oSize "database_size" = (oSize "database_size").getD [] ∧
     execute_size_queries oSize "tablespace_size" = (oSize "tablespace_size").getD [] ∧
     execute_size_queries oSize "schema_size" = (oSize "schema_size").getD [] ∧
     execute_size_queries oSize "table_size" = (oSize "table_size").getD [] ∧
     execute_size_queries oSize "index_size" = (oSize "index_size").getD [] ∧
     execute_size_queries oSize "segment_size" = (oSize "segment_size").getD [] ∧
     execute_size_queries oSize "code_lines" = (oSize "code_lines").getD [] ∧
     execute_size_queries oSize "code_stats" = (oSize "code_stats").getD []) := by
  refine ⟨⟨?_, ?_, ?_, ?_, ?_⟩, ?_, ?_, ?_, ?_, ?_, ?_, ?_, ?_⟩ <;>
    simp [execute_dependency_queries, execute_size_queries, executeQueries,
      depQueryKeys, sizeQueryKeys, executeQueryStep]

/-! ### Persistence lemmas -/

/-- Filtering freshly inserted rows by table and connection keeps all of
them or none of them. -/
theorem filter_map_mk (t' tb : String) (c' c : Nat) (ps : List Nat) :
    ((ps.map fun p => PgRow.mk t' c' p).filter
        fun r => r.table == tb && r.connId == c) =
      if t' = tb ∧ c' = c then ps.map fun p => PgRow.mk t' c' p else [] := by
  induction ps with
  | nil => simp
  | cons p ps ih =>
    by_cases h : t' = tb ∧ c' = c
    · obtain ⟨h1, h2⟩ := h
      subst h1; subst h2
      simp_all
    · have hfalse : (t' == tb && c' == c) = false := by
        by_cases h1 : t' = tb
        · by_cases h2 : c' = c
          · exact absurd ⟨h1, h2⟩ h
          · simp [h2]
        · simp [h1]
      rw [if_neg h] at ih
      rw [if_neg h]
      simp [List.filter_cons, hfalse, ih]

/-- Filtering freshly inserted rows by a table-name predicate keeps all
of them or none of them. -/
theorem filter_map_mk_table (P : String → Bool) (t' : String) (c' : Nat) (ps : List Nat) :
    ((ps.map fun p => PgRow.mk t' c' p).filter fun r => P r.table) =
      if P t' then ps.map fun p => PgRow.mk t' c' p else [] := by
  induction ps with
  | nil => simp
  | cons p ps ih => cases h : P t' <;> simp_all [List.filter_cons]

/-- The rows of one table and connection after the insert sequence:
whatever survived before, followed by exactly the planned rows for that
table. -/
theorem filter_tc_foldl (plan : List (String × List Nat)) (c : Nat)
    (s : List PgRow) (tb : String) :
    ((plan.foldl (fun st e => insertRows e.1 c e.2 st) s).filter
        fun r => r.table == tb && r.connId == c) =
      (s.filter fun r => r.table == tb && r.connId == c) ++
        plan.flatMap fun e =>
          if e.1 = tb then e.2.map fun p => PgRow.mk e.1 c p else [] := by
  induction plan generalizing s with
  | nil => simp
  | cons e plan ih =>
    rw [List.foldl_cons, List.flatMap_cons, ih, insertRows, List.filter_append,
      filter_map_mk]
    by_cases h : e.1 = tb
    · simp [h, List.append_assoc]
    · have hnc : ¬(e.1 = tb ∧ c = c) := fun hc => h hc.1
      simp [h, hnc]

/-- The rows selected by a table-name predicate after the insert
sequence. -/
theorem filter_table_foldl (P : String → Bool) (plan : List (String × List Nat))
    (c : Nat) (s : List PgRow) :
    ((plan.foldl (fun st e => insertRows e.1 c e.2 st) s).filter
        fun r => P r.table) =
      (s.filter fun r => P r.table) ++
        plan.flatMap fun e =>
          if P e.1 then e.2.map fun p => PgRow.mk e.1 c p else [] := by
  induction plan generalizing s with
  | nil => simp
  | cons e plan ih =>
    rw [List.foldl_cons, List.flatMap_cons, ih, insertRows, List.filter_append,
      filter_map_mk_table]
    cases h : P e.1 <;> simp [h, List.append_assoc]

/-- After `cleanup_existing_data`, no row of a cleaned table remains for
the cleaned connection. -/
theorem cleanup_filter_nil (c : Nat) (dba : Bool) (s : List PgRow) (tb : String)
    (h : (tables_to_clean dba).contains tb = true) :
    ((cleanup_existing_data c dba s).filter
        fun r => r.table == tb && r.connId == c) = [] := by
  rw [cleanup_existing_data, List.filter_filter, List.filter_eq_nil_iff]
  intro r _ hcontra
  rw [Bool.and_eq_true, Bool.and_eq_true] at hcontra
  obtain ⟨⟨h1, h2⟩, hkeep⟩ := hcontra
  rw [beq_iff_eq] at h1 h2
  subst h1
  simp [h2] at hkeep
  exact hkeep (by simpa using h)

/-- `cleanup_existing_data` does not touch rows whose table lies outside
the cleaned table list. -/
theorem cleanup_filter_frame (c : Nat) (dba : Bool) (s : List PgRow)
    (P : String → Bool)
    (h : ∀ tb, P tb = true → (tables_to_clean dba).contains tb = false) :
    ((cleanup_existing_data c dba s).filter fun r => P r.table) =
      s.filter fun r => P r.table := by
  rw [cleanup_existing_data, List.filter_filter]
  apply List.filter_congr
  intro r _
  cases hp : P r.table
  · simp [hp]
  · simp only [hp, Bool.and_true, Bool.not_and, Bool.or_eq_true, Bool.not_eq_true',
      Bool.and_eq_true, beq_iff_eq]
    exact ⟨trivial, Or.inl (h r.table hp)⟩

/-- After one persistence run, the rows of any cleaned table for the
persisted connection are exactly the rows planned for that table:
everything older was deleted first. -/
theorem save_filter_cleaned_table (c : Nat) (dba : Bool) (dep : DependencyResults)
    (hasOra : Bool) (oraS : List Nat) (anaS : Bool) (sz : SizeResults)
    (store : List PgRow) (tb : String)
    (h : (tables_to_clean dba).contains tb = true) :
    ((save_connection_data c dba dep hasOra oraS anaS sz store).filter
        fun r => r.table == tb && r.connId == c) =
      (insertPlan dba dep hasOra oraS anaS sz).flatMap fun e =>
        if e.1 = tb then e.2.map fun p => PgRow.mk e.1 c p else [] := by
  rw [save_connection_data, filter_tc_foldl, cleanup_filter_nil _ _ _ _ h,
    List.nil_append]

/-- C4: persisting a bundle of N dependency edges for a connection at a
tier leaves exactly N rows in that tier's dependency table for that
connection, and re-persisting the same bundle for the same connection
and tier again leaves exactly N rows: delete-then-insert makes
re-persistence idempotent, with no duplication or growth. -/
theorem dependency_persistence_idempotent (store : List PgRow) (c : Nat)
    (dba : Bool) (dep : DependencyResults) (hasOra : Bool) (oraS : List Nat)
    (anaS : Bool) (sz : SizeResults) :
    rowCount (save_connection_data c dba dep hasOra oraS anaS sz store)
        (dep_family dba ++ "dependencies") c = dep.dependencies.length ∧
    rowCount
        (save_connection_data c dba dep hasOra oraS anaS sz
          (save_connection_data c dba dep hasOra oraS anaS sz store))
        (dep_family dba ++ "dependencies") c = dep.dependencies.length := by
  have key : ∀ st : List PgRow,
      rowCount (save_connection_data c dba dep hasOra oraS anaS sz st)
        (dep_family dba ++ "dependencies") c = dep.dependencies.length := by
    intro st
    rw [rowCount, save_filter_cleaned_table _ _ _ _ _ _ _ _ _
      (by cases dba <;> decide)]
    cases dba <;> cases hasOra <;> cases anaS <;>
      simp [insertPlan, dep_family, size_family]
  exact ⟨key store, key _⟩

/-- C5: an Elevated-tier persistence run deletes and inserts only in
the Elevated table family: every row of the Restricted family
(`pdt_dep_nodba_*` / `pdt_sizes_nodba_*`) survives unchanged, and the
connection's rows of the Elevated dependency-family tables afterwards
are exactly the freshly inserted bundle. -/
theorem elevated_run_preserves_restricted_rows (store : List PgRow) (c : Nat)
    (dep : DependencyResults) (hasOra : Bool) (oraS : List Nat)
    (anaS : Bool) (sz : SizeResults) :
    ((save_connection_data c true dep hasOra oraS anaS sz store).filter
        fun r => (tierTables false).contains r.table) =
      store.filter (fun r => (tierTables false).contains r.table) ∧
    ((save_connection_data c true dep hasOra oraS anaS sz store).filter
        fun r => r.table == "pdt_dep_dba_dependencies" && r.connId == c) =
      dep.dependencies.map
        (fun p => PgRow.mk "pdt_dep_dba_dependencies" c p) ∧
    ((save_connection_data c true dep hasOra oraS anaS sz store).filter
        fun r => r.table == "pdt_dep_dba_db_links" && r.connId == c) =
      dep.db_links.map (fun p => PgRow.mk "pdt_dep_dba_db_links" c p) ∧
    ((save_connection_data c true dep hasOra oraS anaS sz store).filter
        fun r => r.table == "pdt_dep_dba_cross_schema_privileges" && r.connId == c) =
      dep.cross_schema_privs.map
        (fun p => PgRow.mk "pdt_dep_dba_cross_schema_privileges" c p) ∧
    ((save_connection_data c true dep hasOra oraS anaS sz store).filter
        fun r => r.table == "pdt_dep_dba_external_references" && r.connId == c) =
      dep.external_references.map
        (fun p => PgRow.mk "pdt_dep_dba_external_references" c p) := by
  refine ⟨?_, ?_, ?_, ?_, ?_⟩
  · rw [save_connection_data, filter_table_foldl,
      cleanup_filter_frame _ _ _ _ ?side]
    · have hplan :
          ((insertPlan true dep hasOra oraS anaS sz).flatMap fun e =>
            if (tierTables false).contains e.1 = true then
              e.2.map fun p => PgRow.mk e.1 c p
            else []) = [] := by
        cases hasOra <;> cases anaS <;>
          simp [insertPlan, dep_family, size_family, tierTables]
      rw [hplan, List.append_nil]
    · intro tb htb
      cases hmem : (tables_to_clean true).contains tb
      · rfl
      · exfalso
        have h1 : tb ∈ tierTables false := by simpa using htb
        have h2 : tb ∈ tables_to_clean true := by simpa using hmem
        revert h1 h2
        have : ∀ x ∈ tierTables false, x ∉ tables_to_clean true := by decide
        intro h1 h2
        exact this tb h1 h2
  all_goals
    rw [save_filter_cleaned_table _ _ _ _ _ _ _ _ _ (by decide)]
  all_goals
    cases hasOra <;> cases anaS <;>
      simp [insertPlan, dep_family, size_family]

/-- C10: when the persisted size bundle holds more than 10000
`code_lines` rows, the whole `code_lines` category is skipped — zero
code-line rows are inserted for that connection and tier — while every
other size category of the same bundle is still fully inserted; with at
most 10000 rows, all code-line rows are inserted. -/
theorem code_lines_cap (store : List PgRow) (c : Nat) (dba : Bool)
    (dep : DependencyResults) (hasOra : Bool) (oraS : List Nat)
    (sz : SizeResults) :
    (10000 < sz.code_lines.length →
      rowCount (save_connection_data c dba dep hasOra oraS true sz store)
          (size_family dba ++ "code_lines") c = 0 ∧
      rowCount (save_connection_data c dba dep hasOra oraS true sz store)
          (size_family dba ++ "database_size") c = sz.database_size.length ∧
      rowCount (save_connection_data c dba dep hasOra oraS true sz store)
          (size_family dba ++ "tablespace_size") c = sz.tablespace_size.length ∧
      rowCount (save_connection_data c dba dep hasOra oraS true sz store)
          (size_family dba ++ "schema_size") c = sz.schema_size.length ∧
      rowCount (save_connection_data c dba dep hasOra oraS true sz store)
          (size_family dba ++ "table_size") c = sz.table_size.length ∧
      rowCount (save_connection_data c dba dep hasOra oraS true sz store)
          (size_family dba ++ "index_size") c = sz.index_size.length ∧
      rowCount (save_connection_data c dba dep hasOra oraS true sz store)
          (size_family dba ++ "segment_size") c = sz.segment_size.length ∧
      rowCount (save_connection_data c dba dep hasOra oraS true sz store)
          (size_family dba ++ "code_stats") c = sz.code_stats.length) ∧
    (sz.code_lines.length ≤ 10000 →
      rowCount (save_connection_data c dba dep hasOra oraS true sz store)
          (size_family dba ++ "code_lines") c = sz.code_lines.length) := by
  constructor
  · intro hbig
    have hnle : ¬sz.code_lines.length ≤ 10000 := Nat.not_le.mpr hbig
    refine ⟨?_, ?_, ?_, ?_, ?_, ?_, ?_, ?_⟩ <;>
      rw [rowCount, save_filter_cleaned_table _ _ _ _ _ _ _ _ _
        (by cases dba <;> decide)] <;>
      cases dba <;> cases hasOra <;>
        simp [insertPlan, dep_family, size_family, hnle]
  · intro hsmall
    rw [rowCount, save_filter_cleaned_table _ _ _ _ _ _ _ _ _
      (by cases dba <;> decide)]
    cases dba <;> cases hasOra <;>
      simp [insertPlan, dep_family, size_family, hsmall]

/-- Witness for C10 at a bundle of 10001 code-line rows: no code-line
row is persisted while the single code-stats row of the same bundle
is. -/
theorem code_lines_cap_witness :
    10000 < (List.replicate 10001 0).length ∧
    rowCount
        (save_connection_data 1 true ⟨[], [], [], []⟩ false []
          true ⟨[], [], [], [], [], [], List.replicate 10001 0, [5]⟩ [])
        (size_family true ++ "code_lines") 1 = 0 ∧
    rowCount
        (save_connection_data 1 true ⟨[], [], [], []⟩ false []
          true ⟨[], [], [], [], [], [], List.replicate 10001 0, [5]⟩ [])
        (size_family true ++ "code_stats") 1 =
      ([5] : List Nat).length := by
  have h10 : 10000 < (List.replicate 10001 (0 : Nat)).length := by
    rw [List.length_replicate]
    norm_num
  have hmain := (code_lines_cap [] 1 true ⟨[], [], [], []⟩ false []
    ⟨[], [], [], [], [], [], List.replicate 10001 0, [5]⟩).1 h10
  exact ⟨h10, hmain.1, hmain.2.2.2.2.2.2.2⟩

/-- C7: on the details text `pkg.proc_a: 3, pkg.proc_b: 4.5` the
nested-detail extractor yields exactly the two ProcedureCostDetail
entries (costs 3.0 and 4.5), and the row expansion surfaces each as a
secondary PROCEDURE-tagged entry inheriting the parent's object name;
on the placeholder `-` it yields zero child entries. -/
theorem nested_detail_extraction :
    parse_procedure_details "pkg.proc_a: 3, pkg.proc_b: 4.5" =
      [{ name := "pkg.proc_a", cost := 3, full_name := "pkg.proc_a: 3.0" },
       { name := "pkg.proc_b", cost := 9 / 2, full_name := "pkg.proc_b: 4.5" }] ∧
    processRow
        ["PACKAGE BODY", "2", "0", "7", "c", "pkg.proc_a: 3, pkg.proc_b: 4.5"] =
      [{ object_name := "PACKAGE BODY", object_number := 2, invalid_count := 0,
         estimated_cost := 7, comments := "c",
         details := "pkg.proc_a: 3, pkg.proc_b: 4.5", detail_type := "MAIN",
         procedure_name := none, procedure_cost := none },
       { object_name := "PACKAGE BODY", object_number := 1, invalid_count := 0,
         estimated_cost := 3, comments := "Detail of PACKAGE BODY",
         details := "pkg.proc_a: 3.0", detail_type := "PROCEDURE",
         procedure_name := some "pkg.proc_a", procedure_cost := some 3 },
       { object_name := "PACKAGE BODY", object_number := 1, invalid_count := 0,
         estimated_cost := 9 / 2, comments := "Detail of PACKAGE BODY",
         details := "pkg.proc_b: 4.5", detail_type := "PROCEDURE",
         procedure_name := some "pkg.proc_b", procedure_cost := some (9 / 2) }] ∧
    parse_procedure_details "-" = [] ∧
    processRow ["PACKAGE BODY", "2", "0", "7", "c", "-"] =
      [{ object_name := "PACKAGE BODY", object_number := 2, invalid_count := 0,
         estimated_cost := 7, comments := "c", details := "-",
         detail_type := "MAIN", procedure_name := none,
         procedure_cost := none }] := by
  with_unfolding_all decide

/-- C8: a body row with fewer than six cells is skipped outright; in a
qualifying row the numeric cells go through `safe_int`/`safe_float`,
which return 0 whenever the cell does not parse cleanly — the
conversions are total, so no exception leaves the parser. -/
theorem malformed_rows_and_cells_are_safe (cols : List String) (s : String)
    (c0 c1 c2 c3 c4 c5 : String) (rest : List String) :
    (cols.length < 6 → processRow cols = []) ∧
    (pyInt? (pyStrip s) = none → safe_int s = 0) ∧
    (pyFloat? (pyStrip s) = none → safe_float s = 0) ∧
    (processRow (c0 :: c1 :: c2 :: c3 :: c4 :: c5 :: rest)).head? =
      some { object_name := pyStrip c0, object_number := safe_int c1,
             invalid_count := safe_int c2, estimated_cost := safe_float c3,
             comments := pyStrip c4, details := pyStrip c5,
             detail_type := "MAIN", procedure_name := none,
             procedure_cost := none } := by
  refine ⟨?_, ?_, ?_, ?_⟩
  · intro h
    simp [processRow, h]
  · intro h
    by_cases he : pyStrip s = "" <;> simp [safe_int, he, h]
  · intro h
    by_cases he : pyStrip s = "" <;> simp [safe_float, he, h]
  · have hlen : ¬((c0 :: c1 :: c2 :: c3 :: c4 :: c5 :: rest).length < 6) := by
      simp only [List.length_cons]
      omega
    unfold processRow
    rw [if_neg hlen]
    simp

/-- Witness for C8: a three-cell row is skipped, and the cell text
`n/a` parses cleanly as neither an int nor a float and defaults to 0
through both conversions. -/
theorem malformed_rows_and_cells_are_safe_witness :
    (["only", "three", "cells"].length < 6 ∧
      processRow ["only", "three", "cells"] = []) ∧
    (pyInt? (pyStrip " n/a ") = none ∧ safe_int " n/a " = 0) ∧
    (pyFloat? (pyStrip " n/a ") = none ∧ safe_float " n/a " = 0) := by
  have h := malformed_rows_and_cells_are_safe ["only", "three", "cells"]
    " n/a " "" "" "" "" "" "" []
  exact ⟨⟨by decide, h.1 (by decide)⟩,
    ⟨by decide, h.2.1 (by decide)⟩,
    ⟨by with_unfolding_all decide, h.2.2.1 (by with_unfolding_all decide)⟩⟩

/-- C9: with no textual report, the parsed metrics fall back to total
cost 0 and level `Unknown` (and the parser still returns); with a
textual report, the total cost and level are taken from the first
pattern of the ordered candidate lists that matches — a later pattern
is consulted only when every earlier one fails. -/
theorem report_defaults_and_first_match (content : String)
    (html : Option (List HtmlTable)) (q : ℚ) (lvl : String) :
    ((parse_ora2pg_report none html).total_cost = 0 ∧
     (parse_ora2pg_report none html).migration_level = "Unknown") ∧
    (searchCost (["Total", "estimated", "cost:"].map String.data) content.data =
        some q →
      (parse_ora2pg_report (some content) html).total_cost = q) ∧
    (searchCost (["Total", "estimated", "cost:"].map String.data) content.data =
        none →
     searchCost (["Total", "cost:"].map String.data) content.data = some q →
      (parse_ora2pg_report (some content) html).total_cost = q) ∧
    (searchCost (["Total", "estimated", "cost:"].map String.data) content.data =
        none →
     searchCost (["Total", "cost:"].map String.data) content.data = none →
     searchCost (["Migration", "cost:"].map String.data) content.data = some q →
      (parse_ora2pg_report (some content) html).total_cost = q) ∧
    (searchCost (["Total", "estimated", "cost:"].map String.data) content.data =
        none →
     searchCost (["Total", "cost:"].map String.data) content.data = none →
     searchCost (["Migration", "cost:"].map String.data) content.data = none →
      (parse_ora2pg_report (some content) html).total_cost = 0) ∧
    (searchLevel (["Migration", "level:"].map String.data) content.data =
        some lvl →
      (parse_ora2pg_report (some content) html).migration_level = lvl) ∧
    (searchLevel (["Migration", "level:"].map String.data) content.data = none →
     searchLevel (["Level:"].map String.data) content.data = some lvl →
      (parse_ora2pg_report (some content) html).migration_level = lvl) ∧
    (searchLevel (["Migration", "level:"].map String.data) content.data = none →
     searchLevel (["Level:"].map String.data) content.data = none →
      (parse_ora2pg_report (some content) html).migration_level = "Unknown") := by
  refine ⟨⟨?_, ?_⟩, ?_, ?_, ?_, ?_, ?_, ?_, ?_⟩ <;>
    [skip; skip; intro h1; intro h1 h2; intro h1 h2 h3; intro h1 h2 h3;
     intro h1; intro h1 h2; intro h1 h2] <;>
    (try simp at h1) <;> (try simp at h2) <;> (try simp at h3) <;>
    cases html <;>
    simp [parse_ora2pg_report, extract_total_cost, extract_migration_level,
      cost_patterns, level_patterns, List.findSome?, *]

/-- Witness for C9: a report text matched by both the first and the
second cost pattern (with different captured values) takes its total
cost from the first pattern. -/
theorem report_defaults_and_first_match_witness :
    searchCost (["Total", "estimated", "cost:"].map String.data)
      "Total estimated cost: 10\nTotal cost: 99".data = some 10 ∧
    searchCost (["Total", "cost:"].map String.data)
      "Total estimated cost: 10\nTotal cost: 99".data = some 99 ∧
    (parse_ora2pg_report (some "Total estimated cost: 10\nTotal cost: 99")
        none).total_cost = 10 := by
  refine ⟨?_, ?_, ?_⟩
  · with_unfolding_all decide
  · with_unfolding_all decide
  · exact (report_defaults_and_first_match
      "Total estimated cost: 10\nTotal cost: 99" none 10 "X").2.1
      (by with_unfolding_all decide)

end OracleAnalyzer
